import Mathlib

/-!
Verification of the Lancer Foundry VTT module's database-abstraction core
(`src/module/mm-util/db_abstractions.ts`) and the stat-roll flow
(`src/module/flows/stat.ts`), as a shallow embedding in Lean 4.

Modelling conventions:
- JavaScript `undefined`/`null` becomes `Option`; a thrown `Error` becomes
  `Except String`.
- Entry-type discriminators (`EntryType`) are opaque strings.
- The external helpers `get_pack_id` (from `mm-util/helpers`) and
  `is_actor_type` (from `actor/lancer-actor`) are not part of the sources
  under verification, so they are passed in as function parameters.
- Asynchronous code is modelled by its resolved value; a promise whose
  result is discarded (never awaited nor returned) contributes nothing to
  the returned value, mirroring the JavaScript semantics at the level of
  observable resolution.
-/

set_option autoImplicit false

namespace LancerDB

/-- Association-list lookup, modelling `Map.get` / keyed registry lookup
returning `undefined` when the key is absent. -/
def lookupAssoc {α : Type} (l : List (String × α)) (k : String) : Option α :=
  (l.find? (fun p => p.1 == k)).map (fun p => p.2)

/-- JS truthiness of an optional string: `undefined` and `""` are falsy. -/
def jsTruthyOptStr : Option String → Bool
  | none => false
  | some s => s != ""

/-- The persisted entry payload (`RegEntryTypes<T>`): a name plus an opaque
remainder. The source treats it opaquely except for `.name`. -/
structure RegData where
  name : String
  payload : String
  deriving Repr, DecidableEq

/-- The `top_level_data` record of `FoundryFlagData<T>`: pending top-level
document overrides. The source reads and writes its `name` key; all other
keys are carried opaquely in `rest`. `name = none` models the key being
absent. -/
structure TopLevelData where
  name : Option String
  rest : List (String × String)
  deriving Repr, DecidableEq

/-- `FoundryFlagData<T>`: the flags of a live entry, holding the pending
top-level overrides and `orig_doc_name`, the name snapshot captured at load
time. -/
structure FoundryFlagData where
  top_level_data : TopLevelData
  orig_doc_name : String
  deriving Repr, DecidableEq

/-- A live machine-mind entry (`LiveEntryTypes<T>`) as seen by
`as_document_blob`: its `Name`, its `RegistryID`, its `Flags`, and the
opaque remainder of what `ent.save()` serializes. -/
structure LiveEntry where
  Name : String
  RegistryID : String
  Flags : FoundryFlagData
  save_payload : String
  deriving Repr, DecidableEq

/-- The persistence record produced by `as_document_blob`: the result of
`mergeObject({_id, data: ent.save()}, flags.top_level_data)`. The base
object has no `name` key, so the merged record's `name` is exactly
`top_level_data.name` (absent when that key is absent). -/
structure DocumentBlob where
  blob_id : String
  data : RegData
  name : Option String
  rest : List (String × String)
  deriving Repr, DecidableEq

/-- `ent.save()`: serializes the entry's own fields (its current `Name`
plus the opaque payload). -/
def LiveEntry.save (ent : LiveEntry) : RegData :=
  { name := ent.Name, payload := ent.save_payload }

/-- `as_document_blob` from `db_abstractions.ts` (lines 34-56). The source
mutates `ent`; we return the blob together with the post-state of the
entry. Branch 1 (`flags.top_level_data.name && ... != flags.orig_doc_name`)
assigns `ent.Name`. Branch 2 (`ent.Name && ent.Name != flags.orig_doc_name`)
consists of the bare expression statement `flags.top_level_data.name;`
(line 43), which assigns nothing — modelled as the identity. -/
def as_document_blob (ent : LiveEntry) : DocumentBlob × LiveEntry :=
  let flags := ent.Flags
  let ent1 : LiveEntry :=
    if jsTruthyOptStr flags.top_level_data.name
        && (flags.top_level_data.name != some flags.orig_doc_name) then
      { ent with Name := (flags.top_level_data.name).getD "" }
    else if (ent.Name != "") && (ent.Name != flags.orig_doc_name) then
      -- source line 43: `flags.top_level_data.name;` — evaluated, discarded
      ent
    else
      ent
  ({ blob_id := ent1.RegistryID
     data := ent1.save
     name := ent1.Flags.top_level_data.name
     rest := ent1.Flags.top_level_data.rest }, ent1)

end LancerDB

namespace LancerStat

/-!
Model of `src/module/flows/stat.ts`. The externally-resolved inputs of the
two preparers (the dotpath-resolved bonus, the HUD-adjusted accuracy data,
the item's rank) are parameters; the roller is modelled in full, with its
dead continuation included.
-/

/-- The serialized `AccDiffData` object; the roller only reads
`base.total`. -/
structure AccDiffObj where
  base_total : Int
  deriving Repr, DecidableEq

/-- `LancerFlowState.StatRollData` as constructed and consumed in
`stat.ts`. `bonus = none` models an `undefined` bonus. -/
structure StatRollData where
  kind : String
  title : String
  bonus : Option Int
  acc_diff : AccDiffObj
  roll_str : String
  effect : Option String
  deriving Repr, DecidableEq

/-- Observable effects of the roller: evaluating a dice roll, or rendering
the chat template. -/
inductive StatEffect where
  | evalRoll (formula : String)
  | renderCard (template : String) (title : String)
  deriving Repr, DecidableEq

/-- `rollStatMacro` (stat.ts lines 58-81). The local `actor` is declared
(`let actor;`) and never assigned — the `resolveItemOrActor` call is
commented out in the source — so it is `undefined` and the guard
`if (!actor) return;` always returns. The roll construction and template
render below the guard are dead code, modelled in the unreachable arm.
Returns the rendered card (if any) and the list of emitted effects. -/
def rollStat (data : StatRollData) : Option String × List StatEffect :=
  let actor : Option String := none
  match actor with
  | none => (none, [])
  | some _ =>
    let acc_str : String :=
      if data.acc_diff.base_total != 0 then
        " + " ++ toString data.acc_diff.base_total ++ "d6kh1"
      else ""
    let formula := "1d20+" ++ toString ((data.bonus).getD 0) ++ acc_str
    (some "stat-roll-card",
      [StatEffect.evalRoll formula,
       StatEffect.renderCard "stat-roll-card" data.title])

/-- `prepareStatMacro` (stat.ts lines 14-34), with the externally-resolved
stat title, bonus and HUD-adjusted accuracy as parameters: builds the
`StatRollData` exactly as the source does and calls the roller. -/
def prepareStat (title : String) (bonus : Option Int) (acc_diff : AccDiffObj) :
    Option String × List StatEffect :=
  rollStat
    { kind := "stat", title := title, bonus := bonus, acc_diff := acc_diff
      roll_str := "1d20", effect := none }

/-- `prepareSkillMacro` (stat.ts lines 40-54), with the skill name, current
rank and HUD-adjusted accuracy as parameters; its bonus is
`curr_rank * 2`. -/
def prepareSkill (title : String) (curr_rank : Int) (acc_diff : AccDiffObj) :
    Option String × List StatEffect :=
  rollStat
    { kind := "stat", title := title, bonus := some (curr_rank * 2)
      acc_diff := acc_diff, roll_str := "1d20", effect := none }

end LancerStat

namespace LancerDB

/-- A Foundry document as the wrapper sees it: its `_id`, its `type`
discriminator, its nested system data (`doc.data.data`), and its raw
persisted fields (`doc.data._source.data`) as a keyed record. -/
structure Doc where
  doc_id : String
  type : String
  data_data : RegData
  source_data : List (String × String)
  deriving Repr, DecidableEq

/-- An actor document together with its embedded item collection
(`actor.items`). -/
structure ActorEnt where
  doc : Doc
  items : List Doc
  deriving Repr, DecidableEq

/-- A scene token; `actor = none` models a token whose actor was
deleted. -/
structure Token where
  actor : Option ActorEnt
  deriving Repr, DecidableEq

/-- A scene with its keyed token collection (`scene.tokens`). -/
structure SceneData where
  tokens : List (String × Token)
  deriving Repr, DecidableEq

/-- A compendium pack: a keyless list of documents (actors carry their
items; plain items have an empty `items` list). -/
structure PackData where
  docs : List ActorEnt
  deriving Repr, DecidableEq

/-- The ambient game registries reached through the `game` global:
`game.packs`, `game.actors`, `game.items`, `game.scenes`. -/
structure GameState where
  packs : List (String × PackData)
  actors : List (String × ActorEnt)
  world_items : List Doc
  scenes : List (String × SceneData)
  deriving Repr, DecidableEq

/-- `FoundryRegNameParsed`: the tagged source descriptor the wrapper is
constructed from, one constructor per `src` tag of the source. -/
inductive FoundryRegNameParsed where
  | comp_actor (comp_id token_id actor_id : String)
  | game_actor (actor_id : String)
  | scene_token (scene_id token_id : String)
  | comp (comp_id : String)
  | comp_core
  | game
  | scene (scene_id : String)
  deriving Repr, DecidableEq

/-- A resolved backing collection: a compendium pack collection, an
actor's embedded item collection (carrying its parent actor id and its
documents), the world actor collection, or the world item collection. -/
inductive Collection where
  | packColl (pid : String)
  | embItems (parent_id : String) (docs : List Doc)
  | worldActors
  | worldItems
  deriving Repr, DecidableEq

/-- `collection.contents`: the documents of a resolved collection in the
given game state. -/
def Collection.contents (st : GameState) : Collection → List Doc
  | Collection.packColl pid =>
      match lookupAssoc st.packs pid with
      | some p => p.docs.map (fun a => a.doc)
      | none => []
  | Collection.embItems _ docs => docs
  | Collection.worldActors => st.actors.map (fun p => p.2.doc)
  | Collection.worldItems => st.world_items

/-- `collection.parent`: embedded item collections have their owning actor
as parent; world and pack collections have none. -/
def Collection.parentOf : Collection → Option String
  | Collection.embItems pid _ => some pid
  | _ => none

/-- `collection.getDocument(id)` (asynchronous per-id fetch on a
`CompendiumCollection`): lookup by `_id` among the contents. -/
def Collection.getDocument (st : GameState) (c : Collection) (id : String) :
    Option Doc :=
  (c.contents st).find? (fun d => d.doc_id == id)

/-- `collection.get(id)` (synchronous in-memory lookup on a world or
embedded collection): lookup by `_id` among the contents. -/
def Collection.getSync (st : GameState) (c : Collection) (id : String) :
    Option Doc :=
  (c.contents st).find? (fun d => d.doc_id == id)

/-- `NuWrapper.lookup_collection` (db_abstractions.ts lines 111-186),
resolving a descriptor to a collection. `Except.error` models a thrown
(rejected) `Error`; the payload `Option Collection` models the resolved
value, `none` being `undefined` — which is what the `comp`, `comp_core`
and `comp_actor` branches resolve to, since none of them returns the
collection it looks up: `comp`/`comp_core` merely bind `pack` and fall
through, and `comp_actor` starts `actor_pack.getDocument(...).then(...)`
but neither awaits nor returns that promise, so its result (and any error
thrown inside the callback) never reaches the resolution. -/
def lookup_collection (get_pack_id : String → String)
    (is_actor_type : String → Bool) (st : GameState) (entry_type : String)
    (cfg : FoundryRegNameParsed) : Except String (Option Collection) :=
  match cfg with
  | FoundryRegNameParsed.comp_actor comp_id _token_id _actor_id =>
      match lookupAssoc st.packs comp_id with
      | none => Except.error ("Could not find pack " ++ comp_id)
      | some _actor_pack =>
          -- the detached `.then` callback is unobservable here; the branch
          -- falls through and the function resolves to `undefined`
          Except.ok none
  | FoundryRegNameParsed.game_actor actor_id =>
      match lookupAssoc st.actors actor_id with
      | none => Except.error ("Could not find game actor " ++ actor_id)
      | some actor => Except.ok (some (Collection.embItems actor_id actor.items))
  | FoundryRegNameParsed.scene_token scene_id token_id =>
      match lookupAssoc st.scenes scene_id with
      | none => Except.error ("Could not find scene " ++ scene_id)
      | some sc =>
          match lookupAssoc sc.tokens token_id with
          | none =>
              Except.error
                ("Could not find token " ++ token_id ++ " in scene " ++ scene_id)
          | some token =>
              match token.actor with
              | none => Except.error ("Token " ++ token_id ++ " has no actor")
              | some actor =>
                  Except.ok (some (Collection.embItems actor.doc.doc_id actor.items))
  | FoundryRegNameParsed.comp comp_id =>
      match lookupAssoc st.packs comp_id with
      | none => Except.error ("Pack " ++ comp_id ++ " does not exist")
      | some _pack =>
          -- source never returns `pack`; the branch falls through
          Except.ok none
  | FoundryRegNameParsed.comp_core =>
      match lookupAssoc st.packs (get_pack_id entry_type) with
      | none =>
          Except.error ("Core pack " ++ get_pack_id entry_type ++ " does not exist")
      | some _pack =>
          -- source never returns `pack`; the branch falls through
          Except.ok none
  | FoundryRegNameParsed.game =>
      if is_actor_type entry_type then Except.ok (some Collection.worldActors)
      else Except.ok (some Collection.worldItems)
  | FoundryRegNameParsed.scene _ => Except.ok (some Collection.worldActors)

/-- The wrapper state set up by the `NuWrapper` constructor: the entry
type it filters by, its pack id (if any), its scene (if any, stored by
id), and the memoized collection resolution (`Except` for a rejected
promise, `Option` for resolving to `undefined`). -/
structure NuWrapper where
  entry_type : String
  pack : Option String
  scene : Option String
  collection : Except String (Option Collection)
  deriving Repr

/-- The `NuWrapper` constructor (db_abstractions.ts lines 188-216):
resolves `pack` from `comp`/`comp_actor`/`comp_core` descriptors, resolves
and validates `scene` only for the bare `scene` descriptor (throwing on an
invalid scene id), and kicks off the memoized collection resolution. -/
def NuWrapper.mk_from (get_pack_id : String → String)
    (is_actor_type : String → Bool) (st : GameState) (type : String)
    (cfg : FoundryRegNameParsed) : Except String NuWrapper :=
  let pack : Option String :=
    match cfg with
    | FoundryRegNameParsed.comp comp_id => some comp_id
    | FoundryRegNameParsed.comp_actor comp_id _ _ => some comp_id
    | FoundryRegNameParsed.comp_core => some (get_pack_id type)
    | _ => none
  match cfg with
  | FoundryRegNameParsed.scene scene_id =>
      (match lookupAssoc st.scenes scene_id with
       | none => Except.error ("Invalid scene id: " ++ scene_id)
       | some _ =>
          Except.ok
            { entry_type := type, pack := pack, scene := some scene_id
              collection := lookup_collection get_pack_id is_actor_type st type cfg })
  | _ =>
      Except.ok
        { entry_type := type, pack := pack, scene := none
          collection := lookup_collection get_pack_id is_actor_type st type cfg }

/-- The `GetResult` record returned by the read operations. `data = none`
models a JS `undefined` payload. -/
structure GetResult where
  data : Option RegData
  entity : Doc
  id : String
  type : String
  deriving Repr, DecidableEq

/-- One record of a bulk `createDocuments` call: the entry type tag, the
record's name, and its duplicated data. -/
structure CreateSpec where
  type : String
  name : String
  data : RegData
  deriving Repr, DecidableEq

/-- The write-context (`DocumentModificationContext`) built by
`non_scene_opts`: optional parent actor, optional pack. -/
structure DocModCtx where
  parent : Option String
  pack : Option String
  deriving Repr, DecidableEq

/-- Observable backend interactions of `create_many`: the warning logged
for token-scoped creation, or an actual bulk `createDocuments` call. -/
inductive Effect where
  | warnTokenCreate
  | createCall (specs : List CreateSpec) (opts : DocModCtx)
  deriving Repr, DecidableEq

/-- `NuWrapper.create_many` (db_abstractions.ts lines 236-259). If the
wrapper has a scene, it logs an error and returns `[]` before touching the
collection. Otherwise it awaits the collection, builds the write-context
from the collection's parent and the wrapper's pack, and issues one bulk
`createDocuments` call (the backend being an external parameter), mapping
the created documents back to `GetResult`s (`data` indexes the input
records, `undefined` past their end). The returned effect list records
every backend interaction. -/
def NuWrapper.create_many (backend : List CreateSpec → DocModCtx → List Doc)
    (w : NuWrapper) (reg_data : List RegData) :
    Except String (List GetResult × List Effect) :=
  if w.scene.isSome then
    Except.ok ([], [Effect.warnTokenCreate])
  else
    match w.collection with
    | Except.error e => Except.error e
    | Except.ok none => Except.error "TypeError: collection is undefined"
    | Except.ok (some coll) =>
        let opts : DocModCtx := { parent := coll.parentOf, pack := w.pack }
        let specs : List CreateSpec :=
          reg_data.map (fun d => { type := w.entry_type, name := d.name, data := d })
        let new_docs := backend specs opts
        Except.ok
          (new_docs.enum.map (fun p =>
            { data := reg_data.get? p.1, entity := p.2, id := p.2.doc_id
              type := w.entry_type }),
           [Effect.createCall specs opts])

/-- `NuWrapper.get` (db_abstractions.ts lines 274-297): await the
collection, fetch by id (`getDocument` when pack-backed, `get` otherwise),
and return a `GetResult` only when a document was found and its `type`
matches the wrapper's entry type; otherwise null. -/
def NuWrapper.get (st : GameState) (w : NuWrapper) (id : String) :
    Except String (Option GetResult) :=
  match w.collection with
  | Except.error e => Except.error e
  | Except.ok none => Except.error "TypeError: collection is undefined"
  | Except.ok (some coll) =>
      let fi :=
        if w.pack.isSome then Collection.getDocument st coll id
        else Collection.getSync st coll id
      match fi with
      | some d =>
          if d.type == w.entry_type then
            Except.ok
              (some { data := some d.data_data, entity := d, id := id
                      type := w.entry_type })
          else Except.ok none
      | none => Except.ok none

/-- The per-criterion loop of the non-pack `query` filter: walk the
`[key, value]` entries, returning `false` as soon as
`doc.data._source.data[k] != v` (an absent key compares unequal to every
present value), and `true` past the end. -/
def queryEntriesMatch (doc : Doc) : List (String × String) → Bool
  | [] => true
  | kv :: rest =>
      if lookupAssoc doc.source_data kv.1 != some kv.2 then false
      else queryEntriesMatch doc rest

/-- The non-pack `query` filter predicate (db_abstractions.ts lines
312-325): reject on entry-type mismatch, then check every criterion. -/
def queryFilter (entry_type : String) (query_obj : List (String × String))
    (doc : Doc) : Bool :=
  if doc.type != entry_type then false
  else queryEntriesMatch doc query_obj

/-- `NuWrapper.query` (db_abstractions.ts lines 300-336): pack-backed
wrappers delegate to the backend's filtered fetch
(`getDocuments({...query_obj, type})`, an external parameter); non-pack
wrappers take `collection.contents` and filter in memory, then both map
to `GetResult`s. -/
def NuWrapper.query (backend : Collection → List (String × String) → String → List Doc)
    (st : GameState) (w : NuWrapper) (query_obj : List (String × String)) :
    Except String (List GetResult) :=
  match w.collection with
  | Except.error e => Except.error e
  | Except.ok none => Except.error "TypeError: collection is undefined"
  | Except.ok (some coll) =>
      let all : List Doc :=
        match w.pack with
        | some _ => backend coll query_obj w.entry_type
        | none => (coll.contents st).filter (queryFilter w.entry_type query_obj)
      Except.ok (all.map (fun e =>
        { data := some e.data_data, entity := e, id := e.doc_id
          type := w.entry_type }))

/-- `NuWrapper.enumerate` (db_abstractions.ts lines 339-341): query with
no filter. -/
def NuWrapper.enumerate (backend : Collection → List (String × String) → String → List Doc)
    (st : GameState) (w : NuWrapper) : Except String (List GetResult) :=
  NuWrapper.query backend st w []

/-- C1: the Blob Builder at the failing input of case B
(`top_level_data.name = orig_doc_name = "Y"`, entry name `"Z"`): the
produced record's `name` is `"Y"` (stale), and `top_level_data.name`
remains `"Y"` — no write-back happens, because source line 43 is a bare
expression statement. This theorem evaluates the embedded code at the
failing input. -/
theorem C1_as_document_blob_case_b_no_writeback :
    (as_document_blob
      { Name := "Z", RegistryID := "r1"
        Flags := { top_level_data := { name := some "Y", rest := [] }
                   orig_doc_name := "Y" }
        save_payload := "p" }).1.name = some "Y" ∧
    ((as_document_blob
      { Name := "Z", RegistryID := "r1"
        Flags := { top_level_data := { name := some "Y", rest := [] }
                   orig_doc_name := "Y" }
        save_payload := "p" }).2).Flags.top_level_data.name = some "Y" := by
  constructor <;> rfl

/-- C9: when `top_level_data.name` is absent or the empty string (both
falsy in JS), the top-level-name-wins branch is not taken, so the entry's
own `Name` is never overwritten from the top-level override — even when
that (empty) top-level name differs from `orig_doc_name`. -/
theorem C9_empty_top_name_preserves_entry_name (ent : LiveEntry)
    (h : ent.Flags.top_level_data.name = none ∨
         ent.Flags.top_level_data.name = some "") :
    ((as_document_blob ent).2).Name = ent.Name := by
  rcases h with h | h <;>
    simp [as_document_blob, jsTruthyOptStr, h, ite_self]

/-- Witness for C9 at a concrete entry with an absent top-level name. -/
theorem C9_empty_top_name_preserves_entry_name_w :
    ({ Name := "Z", RegistryID := "r1"
       Flags := { top_level_data := { name := none, rest := [] }
                  orig_doc_name := "Y" }
       save_payload := "p" } : LiveEntry).Flags.top_level_data.name = none ∧
    ((as_document_blob
      { Name := "Z", RegistryID := "r1"
        Flags := { top_level_data := { name := none, rest := [] }
                   orig_doc_name := "Y" }
        save_payload := "p" }).2).Name = "Z" :=
  ⟨rfl, C9_empty_top_name_preserves_entry_name _ (Or.inl rfl)⟩

end LancerDB

namespace LancerStat

/-- C10: for every `StatRollData`, the roller returns without evaluating
any dice roll and without rendering a chat card (its local actor variable
is never assigned, so the early-return guard always triggers); and
consequently neither preparer produces a chat card through it. -/
theorem C10_rollStat_early_return :
    (∀ data : StatRollData, rollStat data = (none, [])) ∧
    (∀ (t : String) (b : Option Int) (a : AccDiffObj),
        prepareStat t b a = (none, [])) ∧
    (∀ (t : String) (r : Int) (a : AccDiffObj),
        prepareSkill t r a = (none, [])) :=
  ⟨fun _ => rfl, fun _ _ _ => rfl, fun _ _ _ => rfl⟩

end LancerStat

namespace LancerDB

/-- The criterion loop equals an `all` over the criteria: every key must
be present in the raw persisted fields with exactly the required value. -/
theorem queryEntriesMatch_eq_all (doc : Doc) (q : List (String × String)) :
    queryEntriesMatch doc q =
      q.all (fun kv => lookupAssoc doc.source_data kv.1 == some kv.2) := by
  induction q with
  | nil => rfl
  | cons kv rest ih =>
      cases h : (lookupAssoc doc.source_data kv.1 == some kv.2) <;>
        simp [queryEntriesMatch, bne, h, ih]

/-- The non-pack query filter equals the declarative predicate: kind
discriminator matches and every criterion holds on the raw persisted
fields. -/
theorem queryFilter_eq_all (et : String) (q : List (String × String)) (d : Doc) :
    queryFilter et q d =
      (d.type == et &&
        q.all (fun kv => lookupAssoc d.source_data kv.1 == some kv.2)) := by
  cases h : (d.type == et) <;>
    simp [queryFilter, bne, h, queryEntriesMatch_eq_all]

/-- C2: for a `comp` descriptor whose pack id is registered (and a
`comp_core` descriptor whose derived pack id is registered), the resolver
resolves successfully but to `undefined` — not to the pack collection —
because the `comp`/`comp_core` branches never return the pack they look
up; the NotFound failure on an absent pack does hold. Evaluates the
embedded resolver at the failing inputs. -/
theorem C2_comp_lookup_resolves_no_handle :
    lookup_collection (fun t => String.append "lancer." t) (fun _ => false)
      { packs := [("lancer.frames", { docs := [] }),
                  ("lancer.frame", { docs := [] })]
        actors := [], world_items := [], scenes := [] } "frame"
      (FoundryRegNameParsed.comp "lancer.frames") = Except.ok none ∧
    lookup_collection (fun t => String.append "lancer." t) (fun _ => false)
      { packs := [("lancer.frames", { docs := [] }),
                  ("lancer.frame", { docs := [] })]
        actors := [], world_items := [], scenes := [] } "frame"
      FoundryRegNameParsed.comp_core = Except.ok none ∧
    lookup_collection (fun t => String.append "lancer." t) (fun _ => false)
      { packs := [], actors := [], world_items := [], scenes := [] } "frame"
      (FoundryRegNameParsed.comp "lancer.missing") =
      Except.error "Pack lancer.missing does not exist" :=
  ⟨rfl, rfl, rfl⟩

/-- C3: for a `comp_actor` descriptor whose pack is registered and whose
actor exists in the pack (with a non-empty item collection), the resolver
still resolves to `undefined` — not to the actor's item collection —
because the source discards the `getDocument(...).then(...)` promise; and
when the actor is absent the resolution still succeeds with `undefined`
instead of failing NotFound. Evaluates the embedded resolver at the
failing inputs. -/
theorem C3_comp_actor_lookup_resolves_no_handle :
    lookup_collection (fun t => String.append "lancer." t) (fun _ => true)
      { packs := [("lancer.npcs",
          { docs := [{
              doc := { doc_id := "tok1", type := "npc",
                       data_data := { name := "N", payload := "" },
                       source_data := [] },
              items := [{ doc_id := "i1", type := "npc_feature",
                          data_data := { name := "F", payload := "" },
                          source_data := [] }] }] })],
        actors := [], world_items := [], scenes := [] } "npc"
      (FoundryRegNameParsed.comp_actor "lancer.npcs" "tok1" "a1") =
      Except.ok none ∧
    lookup_collection (fun t => String.append "lancer." t) (fun _ => true)
      { packs := [("lancer.npcs",
          { docs := [{
              doc := { doc_id := "tok1", type := "npc",
                       data_data := { name := "N", payload := "" },
                       source_data := [] },
              items := [{ doc_id := "i1", type := "npc_feature",
                          data_data := { name := "F", payload := "" },
                          source_data := [] }] }] })],
        actors := [], world_items := [], scenes := [] } "npc"
      (FoundryRegNameParsed.comp_actor "lancer.npcs" "absent_tok" "a1") =
      Except.ok none :=
  ⟨rfl, rfl⟩

/-- C4: a wrapper constructed from a bare `scene` descriptor (the
token-scoped creation target) answers `create_many` with the empty
sequence and the logged warning, and issues no `createDocuments` call
against any collection. -/
theorem C4_create_many_token_scoped (gpi : String → String)
    (iat : String → Bool) (st : GameState) (type sid : String)
    (backend : List CreateSpec → DocModCtx → List Doc)
    (records : List RegData) (w : NuWrapper)
    (h : NuWrapper.mk_from gpi iat st type (FoundryRegNameParsed.scene sid) =
      Except.ok w) :
    NuWrapper.create_many backend w records =
      Except.ok ([], [Effect.warnTokenCreate]) ∧
    ∀ (specs : List CreateSpec) (opts : DocModCtx),
      Effect.createCall specs opts ∉ ([Effect.warnTokenCreate] : List Effect) := by
  constructor
  · have hs : w.scene = some sid := by
      simp only [NuWrapper.mk_from] at h
      cases hl : lookupAssoc st.scenes sid with
      | none => rw [hl] at h; exact absurd h (by simp)
      | some sc =>
          rw [hl] at h
          rw [← Except.ok.inj h]
    simp [NuWrapper.create_many, hs]
  · intro specs opts
    simp

/-- Witness for C4 at a concrete scene-descriptor wrapper. -/
theorem C4_create_many_token_scoped_w :
    NuWrapper.mk_from (fun t => t) (fun _ => false)
      { packs := [], actors := [], world_items := []
        scenes := [("s1", { tokens := [] })] } "npc"
      (FoundryRegNameParsed.scene "s1") =
      Except.ok
        { entry_type := "npc", pack := none, scene := some "s1"
          collection := Except.ok (some Collection.worldActors) } ∧
    NuWrapper.create_many (fun _ _ => [])
      { entry_type := "npc", pack := none, scene := some "s1"
        collection := Except.ok (some Collection.worldActors) }
      [{ name := "r", payload := "" }] =
      Except.ok ([], [Effect.warnTokenCreate]) :=
  ⟨rfl,
    (C4_create_many_token_scoped (fun t => t) (fun _ => false)
      { packs := [], actors := [], world_items := []
        scenes := [("s1", { tokens := [] })] } "npc" "s1" (fun _ _ => [])
      [{ name := "r", payload := "" }]
      { entry_type := "npc", pack := none, scene := some "s1"
        collection := Except.ok (some Collection.worldActors) } rfl).1⟩

/-- C5: on a wrapper whose collection resolved, `get(id)` returns null —
without raising — both when no document with that `_id` is in the
collection and when the found document's kind discriminator differs from
the wrapper's entry type; and when a match of the right kind exists it
returns a `GetResult` whose `type` equals the wrapper's entry type. -/
theorem C5_get_null_on_miss_or_kind_mismatch (st : GameState)
    (w : NuWrapper) (c : Collection) (id : String)
    (hc : w.collection = Except.ok (some c)) :
    ((c.contents st).find? (fun d => d.doc_id == id) = none →
        NuWrapper.get st w id = Except.ok none) ∧
    (∀ d : Doc, (c.contents st).find? (fun d => d.doc_id == id) = some d →
        d.type ≠ w.entry_type → NuWrapper.get st w id = Except.ok none) ∧
    (∀ d : Doc, (c.contents st).find? (fun d => d.doc_id == id) = some d →
        d.type = w.entry_type →
        NuWrapper.get st w id =
          Except.ok (some { data := some d.data_data, entity := d, id := id
                            type := w.entry_type })) := by
  have hfi : (if w.pack.isSome then Collection.getDocument st c id
      else Collection.getSync st c id) =
      (c.contents st).find? (fun d => d.doc_id == id) := by
    cases w.pack.isSome <;>
      simp [Collection.getDocument, Collection.getSync]
  refine ⟨?_, ?_, ?_⟩
  · intro h0
    simp [NuWrapper.get, hc, hfi, h0]
  · intro d hd hne
    simp [NuWrapper.get, hc, hfi, hd, hne]
  · intro d hd heq
    simp [NuWrapper.get, hc, hfi, hd, heq]

/-- Witness for C5 at a concrete resolved wrapper: the right-kind match is
returned with the wrapper's entry type. -/
theorem C5_get_null_on_miss_or_kind_mismatch_w :
    ({ entry_type := "npc", pack := none, scene := none
       collection := Except.ok (some (Collection.embItems "a1"
         [{ doc_id := "i1", type := "npc"
            data_data := { name := "N", payload := "" }
            source_data := [] }])) } : NuWrapper).collection =
      Except.ok (some (Collection.embItems "a1"
        [{ doc_id := "i1", type := "npc"
           data_data := { name := "N", payload := "" }
           source_data := [] }])) ∧
    NuWrapper.get { packs := [], actors := [], world_items := [], scenes := [] }
      { entry_type := "npc", pack := none, scene := none
        collection := Except.ok (some (Collection.embItems "a1"
          [{ doc_id := "i1", type := "npc"
             data_data := { name := "N", payload := "" }
             source_data := [] }])) } "i1" =
      Except.ok (some
        { data := some { name := "N", payload := "" }
          entity := { doc_id := "i1", type := "npc"
                      data_data := { name := "N", payload := "" }
                      source_data := [] }
          id := "i1", type := "npc" }) :=
  ⟨rfl,
    (C5_get_null_on_miss_or_kind_mismatch
      { packs := [], actors := [], world_items := [], scenes := [] }
      { entry_type := "npc", pack := none, scene := none
        collection := Except.ok (some (Collection.embItems "a1"
          [{ doc_id := "i1", type := "npc"
             data_data := { name := "N", payload := "" }
             source_data := [] }])) }
      (Collection.embItems "a1"
        [{ doc_id := "i1", type := "npc"
           data_data := { name := "N", payload := "" }
           source_data := [] }]) "i1" rfl).2.2
      { doc_id := "i1", type := "npc"
        data_data := { name := "N", payload := "" }
        source_data := [] } rfl rfl⟩

/-- C6: on a non-pack-backed wrapper with a resolved collection, `query`
returns exactly the contents whose kind discriminator equals the wrapper's
entry type and whose raw persisted fields satisfy equality on every
criterion key, mapped to `GetResult`s; and the empty sequence when no
document matches. -/
theorem C6_query_nonpack_filter
    (backend : Collection → List (String × String) → String → List Doc)
    (st : GameState) (w : NuWrapper) (c : Collection)
    (q : List (String × String))
    (hp : w.pack = none) (hc : w.collection = Except.ok (some c)) :
    NuWrapper.query backend st w q =
      Except.ok
        (((c.contents st).filter
            (fun d => d.type == w.entry_type &&
              q.all (fun kv => lookupAssoc d.source_data kv.1 == some kv.2))).map
          (fun d => { data := some d.data_data, entity := d, id := d.doc_id
                      type := w.entry_type })) ∧
    ((c.contents st).all
        (fun d => !(d.type == w.entry_type &&
          q.all (fun kv => lookupAssoc d.source_data kv.1 == some kv.2))) = true →
      NuWrapper.query backend st w q = Except.ok []) := by
  have hmain : NuWrapper.query backend st w q =
      Except.ok
        (((c.contents st).filter
            (fun d => d.type == w.entry_type &&
              q.all (fun kv => lookupAssoc d.source_data kv.1 == some kv.2))).map
          (fun d => { data := some d.data_data, entity := d, id := d.doc_id
                      type := w.entry_type })) := by
    simp only [NuWrapper.query, hc, hp]
    rw [List.filter_congr (fun d _ => queryFilter_eq_all w.entry_type q d)]
  refine ⟨hmain, fun hall => ?_⟩
  rw [hmain]
  have hnil : (c.contents st).filter
      (fun d => d.type == w.entry_type &&
        q.all (fun kv => lookupAssoc d.source_data kv.1 == some kv.2)) = [] := by
    rw [List.filter_eq_nil_iff]
    intro a ha
    have hb := (List.all_eq_true.mp hall) a ha
    simp only [Bool.not_eq_true'] at hb
    simp [hb]
  rw [hnil]
  rfl

/-- Witness for C6 at a concrete two-document collection where exactly one
document has the right kind and satisfies the criterion. -/
theorem C6_query_nonpack_filter_w :
    ({ entry_type := "frame", pack := none, scene := none
       collection := Except.ok (some (Collection.embItems "a1"
         [{ doc_id := "i1", type := "frame"
            data_data := { name := "F1", payload := "" }
            source_data := [("lid", "mf_x")] },
          { doc_id := "i2", type := "weapon"
            data_data := { name := "W1", payload := "" }
            source_data := [("lid", "mf_x")] }])) } : NuWrapper).pack = none ∧
    NuWrapper.query (fun _ _ _ => [])
      { packs := [], actors := [], world_items := [], scenes := [] }
      { entry_type := "frame", pack := none, scene := none
        collection := Except.ok (some (Collection.embItems "a1"
          [{ doc_id := "i1", type := "frame"
             data_data := { name := "F1", payload := "" }
             source_data := [("lid", "mf_x")] },
           { doc_id := "i2", type := "weapon"
             data_data := { name := "W1", payload := "" }
             source_data := [("lid", "mf_x")] }])) }
      [("lid", "mf_x")] =
      Except.ok
        [{ data := some { name := "F1", payload := "" }
           entity := { doc_id := "i1", type := "frame"
                       data_data := { name := "F1", payload := "" }
                       source_data := [("lid", "mf_x")] }
           id := "i1", type := "frame" }] := by
  refine ⟨rfl, ?_⟩
  rw [(C6_query_nonpack_filter (fun _ _ _ => [])
    { packs := [], actors := [], world_items := [], scenes := [] }
    { entry_type := "frame", pack := none, scene := none
      collection := Except.ok (some (Collection.embItems "a1"
        [{ doc_id := "i1", type := "frame"
           data_data := { name := "F1", payload := "" }
           source_data := [("lid", "mf_x")] },
         { doc_id := "i2", type := "weapon"
           data_data := { name := "W1", payload := "" }
           source_data := [("lid", "mf_x")] }])) }
    (Collection.embItems "a1"
      [{ doc_id := "i1", type := "frame"
         data_data := { name := "F1", payload := "" }
         source_data := [("lid", "mf_x")] },
       { doc_id := "i2", type := "weapon"
         data_data := { name := "W1", payload := "" }
         source_data := [("lid", "mf_x")] }])
    [("lid", "mf_x")] rfl rfl).1]
  rfl

/-- C7: `enumerate()` is exactly `query({})` — for every backend, game
state and wrapper, the two calls agree. -/
theorem C7_enumerate_eq_query_empty
    (backend : Collection → List (String × String) → String → List Doc)
    (st : GameState) (w : NuWrapper) :
    NuWrapper.enumerate backend st w = NuWrapper.query backend st w [] := rfl

/-- C8: every successfully constructed wrapper has its pack id set only
for `comp`/`comp_actor`/`comp_core` descriptors and its scene set only for
the bare `scene` descriptor, so pack and scene are never both set. -/
theorem C8_pack_scene_exclusive (gpi : String → String) (iat : String → Bool)
    (st : GameState) (type : String) (cfg : FoundryRegNameParsed)
    (w : NuWrapper)
    (h : NuWrapper.mk_from gpi iat st type cfg = Except.ok w) :
    ¬(w.pack ≠ none ∧ w.scene ≠ none) ∧
    (w.pack ≠ none →
      (∃ cid, cfg = FoundryRegNameParsed.comp cid) ∨
      (∃ cid tid aid, cfg = FoundryRegNameParsed.comp_actor cid tid aid) ∨
      cfg = FoundryRegNameParsed.comp_core) ∧
    (w.scene ≠ none → ∃ sid, cfg = FoundryRegNameParsed.scene sid) := by
  cases cfg with
  | comp_actor cid tid aid =>
      simp only [NuWrapper.mk_from, Except.ok.injEq] at h
      subst h
      exact ⟨by simp, fun _ => Or.inr (Or.inl ⟨cid, tid, aid, rfl⟩),
        fun hs => absurd rfl hs⟩
  | game_actor aid =>
      simp only [NuWrapper.mk_from, Except.ok.injEq] at h
      subst h
      exact ⟨by simp, fun hp => absurd rfl hp, fun hs => absurd rfl hs⟩
  | scene_token sid tid =>
      simp only [NuWrapper.mk_from, Except.ok.injEq] at h
      subst h
      exact ⟨by simp, fun hp => absurd rfl hp, fun hs => absurd rfl hs⟩
  | comp cid =>
      simp only [NuWrapper.mk_from, Except.ok.injEq] at h
      subst h
      exact ⟨by simp, fun _ => Or.inl ⟨cid, rfl⟩, fun hs => absurd rfl hs⟩
  | comp_core =>
      simp only [NuWrapper.mk_from, Except.ok.injEq] at h
      subst h
      exact ⟨by simp, fun _ => Or.inr (Or.inr rfl), fun hs => absurd rfl hs⟩
  | game =>
      simp only [NuWrapper.mk_from, Except.ok.injEq] at h
      subst h
      exact ⟨by simp, fun hp => absurd rfl hp, fun hs => absurd rfl hs⟩
  | scene sid =>
      simp only [NuWrapper.mk_from] at h
      cases hl : lookupAssoc st.scenes sid with
      | none => rw [hl] at h; exact absurd h (by simp)
      | some sc =>
          rw [hl] at h
          simp only [Except.ok.injEq] at h
          subst h
          exact ⟨by simp, fun hp => absurd rfl hp, fun _ => ⟨sid, rfl⟩⟩

/-- Witness for C8 at a concrete `comp` descriptor wrapper. -/
theorem C8_pack_scene_exclusive_w :
    NuWrapper.mk_from (fun t => t) (fun _ => false)
      { packs := [("p1", { docs := [] })], actors := [], world_items := []
        scenes := [] } "frame" (FoundryRegNameParsed.comp "p1") =
      Except.ok
        { entry_type := "frame", pack := some "p1", scene := none
          collection := Except.ok none } ∧
    ¬(({ entry_type := "frame", pack := some "p1", scene := none
         collection := Except.ok none } : NuWrapper).pack ≠ none ∧
      ({ entry_type := "frame", pack := some "p1", scene := none
         collection := Except.ok none } : NuWrapper).scene ≠ none) :=
  ⟨rfl,
    (C8_pack_scene_exclusive (fun t => t) (fun _ => false)
      { packs := [("p1", { docs := [] })], actors := [], world_items := []
        scenes := [] } "frame" (FoundryRegNameParsed.comp "p1")
      { entry_type := "frame", pack := some "p1", scene := none
        collection := Except.ok none } rfl).1⟩

end LancerDB
